import Mathlib

/-!
Shallow embedding of `src/observe.py`: the logging & tracing layer
(severity levels, global configuration, channel hierarchy, sink
constructors, Log/Trace handles, and the `logged`/`traced`
instrumentation decorators).

Python's mutable module state is made explicit: the `GlobalConfig`
class becomes an explicit record (`GlobalConfigState`) threaded to the
factory functions, and for `update_global_config` — which works by
runtime attribute probing (`vars`, `hasattr`, `setattr`) — the
configuration object is modelled dynamically as an association list
of attribute-name/value pairs.
-/

/-- `Level` (observe.py, `class Level(IntEnum)`): NOTSET=0, DEBUG=10,
INFO=20, TRACE=25 (the injected custom tier), WARN=30, ERROR=40,
CRITICAL=50. -/
inductive Level where
  | NOTSET
  | DEBUG
  | INFO
  | TRACE
  | WARN
  | ERROR
  | CRITICAL
deriving DecidableEq

/-- Numeric value of each `Level` member, as in the Python `IntEnum`. -/
def Level.toInt : Level → Int
  | .NOTSET => 0
  | .DEBUG => 10
  | .INFO => 20
  | .TRACE => 25
  | .WARN => 30
  | .ERROR => 40
  | .CRITICAL => 50

/-- `Level(n)`: IntEnum value lookup. Returns `none` where Python raises
`ValueError` (n not a declared member value). -/
def Level.ofInt (n : Int) : Option Level :=
  if n = 0 then some .NOTSET
  else if n = 10 then some .DEBUG
  else if n = 20 then some .INFO
  else if n = 25 then some .TRACE
  else if n = 30 then some .WARN
  else if n = 40 then some .ERROR
  else if n = 50 then some .CRITICAL
  else none

/-- The set of declared `Level` member values. -/
def levelValues : List Int := [0, 10, 20, 25, 30, 40, 50]

/-- `Log` (observe.py line 181): a handle with `name` and validated
`level` (the wrapped `logging.Logger` is keyed by `name`; its threshold
is set to `level` by `__init__`). -/
structure Log where
  name : String
  level : Level
deriving DecidableEq

/-- `Log.__init__(name, level)`: stores `name`, validates `level` via
`Level(level)` (ValueError → `none`). -/
def mkLog (name : String) (level : Int) : Option Log :=
  (Level.ofInt level).map (fun l => { name := name, level := l })

/-- `Trace` (observe.py line 198): wraps a `Log` stored in `_log`. -/
structure Trace where
  _log : Log
deriving DecidableEq

/-- `Trace.__init__(name, level)`: builds the underlying `Log`. -/
def mkTrace (name : String) (level : Int) : Option Trace :=
  (mkLog name level).map Trace.mk

/-- `Trace.span(name)` (observe.py line 210): returns
`Trace(f"{self._log.name}.{name}", self._log.level.value)` — a fresh
`Trace` constructed through `Trace.__init__`, hence re-validated. -/
def Trace.span (t : Trace) (name : String) : Option Trace :=
  mkTrace (t._log.name ++ "." ++ name) t._log.level.toInt

/-- `Format.CUSTOM` (observe.py `class Format(StrEnum)`). -/
def formatCustom : String :=
  "\x7basctime\x7d :: \x7blevelname\x7d :: \x7bname\x7d :: \x7bmessage\x7d"

/-- `Format.CUSTOM_TRACING`. -/
def formatCustomTracing : String :=
  "\x7basctime\x7d :: \x7blevelname\x7d :: \x7bname\x7d \x7bprocessName\x7d \x7bthreadName\x7d :: \x7bmessage\x7d"

/-- `DateFormat.RFC_2822`. -/
def dateFormatRfc2822 : String := "%a, %d %b %Y %T %z"

/-- The `GlobalConfig` class attributes (observe.py line 125), made an
explicit record: Python keeps this as mutable class-level state read by
every factory; here the current state is passed explicitly. -/
structure GlobalConfigState where
  GLOBAL_LOGGER_NAME : String
  GLOBAL_LOGGER_LEVEL : Int
  GLOBAL_LOGGER_STYLE : String
  GLOBAL_LOGGER_FORMAT : String
  GLOBAL_LOGGER_DATEFMT : String
  GLOBAL_LOGGER_PROPOGATE : Bool
  GLOBAL_LOGGER_FORCE_AS_ROOT : Bool
  GLOBAL_LOGGER_CAPTURE_WARNINGS : Bool
  GLOBAL_TRACER_NAME : String
  GLOBAL_TRACER_LEVEL : Int
  GLOBAL_TRACER_STYLE : String
  GLOBAL_TRACER_FORMAT : String
  GLOBAL_TRACER_DATEFMT : String
  GLOBAL_TRACER_PROPOGATE : Bool
deriving DecidableEq

/-- The class-body defaults of `GlobalConfig` (observe.py lines 127-141):
logger "global" at DEBUG, tracer "events" at TRACE, style "\x7b",
CUSTOM / CUSTOM_TRACING formats, RFC 2822 dates, no propagation. -/
def defaultGlobalConfig : GlobalConfigState where
  GLOBAL_LOGGER_NAME := "global"
  GLOBAL_LOGGER_LEVEL := 10
  GLOBAL_LOGGER_STYLE := "\x7b"
  GLOBAL_LOGGER_FORMAT := formatCustom
  GLOBAL_LOGGER_DATEFMT := dateFormatRfc2822
  GLOBAL_LOGGER_PROPOGATE := false
  GLOBAL_LOGGER_FORCE_AS_ROOT := false
  GLOBAL_LOGGER_CAPTURE_WARNINGS := true
  GLOBAL_TRACER_NAME := "events"
  GLOBAL_TRACER_LEVEL := 25
  GLOBAL_TRACER_STYLE := "\x7b"
  GLOBAL_TRACER_FORMAT := formatCustomTracing
  GLOBAL_TRACER_DATEFMT := dateFormatRfc2822
  GLOBAL_TRACER_PROPOGATE := false

/-- The destination a handler writes to (which stdlib handler class
`create_handler_*` instantiates, with its construction arguments). -/
inductive Dest where
  | stdoutDest
  | stderrDest
  | syslogDest (host : String) (port : Int)
  | fileDest (path : String) (mode : String) (encoding : Option String)
  | rotatingFileDest (path : String) (mode : String) (maxFiles : Int)
      (maxBytes : Int) (encoding : Option String)
deriving DecidableEq

/-- A stdlib `Handler` as this module configures it: destination,
minimum-level filter (`setLevel`), and the formatter fields — `none`
until a `Formatter` is attached by a global factory. -/
structure Handler where
  dest : Dest
  level : Int
  fmt : Option String
  datefmt : Option String
  style : Option String
deriving DecidableEq

/-- `create_handler_stdout(level=GlobalConfig.GLOBAL_LOGGER_LEVEL)`
(observe.py line 325). A Python default argument is evaluated once, at
function-definition (module-import) time, so the default is the
class-body value `defaultGlobalConfig.GLOBAL_LOGGER_LEVEL`, not the
config state current at the call (`_cfgNow`, which the body never
reads). `level = none` models a call without an explicit level. -/
def create_handler_stdout (_cfgNow : GlobalConfigState)
    (level : Option Int) : Handler :=
  { dest := .stdoutDest,
    level := level.getD defaultGlobalConfig.GLOBAL_LOGGER_LEVEL,
    fmt := none, datefmt := none, style := none }

/-- `create_handler_stderr(level=Level.ERROR)` (observe.py line 333). -/
def create_handler_stderr (level : Option Int) : Handler :=
  { dest := .stderrDest, level := level.getD Level.ERROR.toInt,
    fmt := none, datefmt := none, style := none }

/-- `create_handler_syslog(host, port, level=GlobalConfig.GLOBAL_LOGGER_LEVEL)`
(observe.py line 339); same def-time default as `create_handler_stdout`. -/
def create_handler_syslog (_cfgNow : GlobalConfigState) (host : String)
    (port : Int) (level : Option Int) : Handler :=
  { dest := .syslogDest host port,
    level := level.getD defaultGlobalConfig.GLOBAL_LOGGER_LEVEL,
    fmt := none, datefmt := none, style := none }

/-- `create_handler_file(path, mode, encoding, level=GlobalConfig.GLOBAL_LOGGER_LEVEL)`
(observe.py line 349); same def-time default. -/
def create_handler_file (_cfgNow : GlobalConfigState) (path : String)
    (mode : String) (encoding : Option String)
    (level : Option Int) : Handler :=
  { dest := .fileDest path mode encoding,
    level := level.getD defaultGlobalConfig.GLOBAL_LOGGER_LEVEL,
    fmt := none, datefmt := none, style := none }

/-- `create_handler_file_rotating(path, mode, max_files, max_bytes,
encoding, level=GlobalConfig.GLOBAL_LOGGER_LEVEL)` (observe.py line
360); same def-time default. -/
def create_handler_file_rotating (_cfgNow : GlobalConfigState)
    (path : String) (mode : String) (maxFiles : Int) (maxBytes : Int)
    (encoding : Option String) (level : Option Int) : Handler :=
  { dest := .rotatingFileDest path mode maxFiles maxBytes encoding,
    level := level.getD defaultGlobalConfig.GLOBAL_LOGGER_LEVEL,
    fmt := none, datefmt := none, style := none }

/-- A Channel: the state this module installs on one stdlib logger
node — dotted name, severity threshold (`setLevel`), attached sinks
(`addHandler`), and the propagation flag. -/
structure Channel where
  name : String
  threshold : Int
  sinks : List Handler
  propagate : Bool
deriving DecidableEq

/-- Modelled from the spec: the routing done by the stdlib `logging`
backend (not part of this repository's sources) when a record is
emitted on the head Channel of an ancestor chain — every Channel along
the chain offers the record to each of its sinks whose own filter level
is ≤ the record level, and the walk continues to the parent only while
the current Channel's propagation flag is set. -/
def collectSinks (level : Int) (msg : String) :
    List Channel → List (Handler × String)
  | [] => []
  | c :: ancestors =>
      (c.sinks.filter (fun s => decide (s.level ≤ level))).map
          (fun s => (s, msg)) ++
        (if c.propagate then collectSinks level msg ancestors else [])

/-- Modelled from the spec: `log(level, message)` routes the message to
the sinks reachable from the emitting Channel (the head of `chain`,
followed by its ancestors), only if `level` ≥ that Channel's threshold,
the threshold being read at emission time. -/
def emitThrough (chain : List Channel) (level : Int) (msg : String) :
    List (Handler × String) :=
  match chain with
  | [] => []
  | c :: _ =>
      if c.threshold ≤ level then collectSinks level msg chain else []

/-- `handler.setFormatter(Formatter(fmt=…, style=…, datefmt=…))` as the
global factories perform it on each handler. -/
def setFormatterFields (fmt style datefmt : String) (h : Handler) :
    Handler :=
  { h with fmt := some fmt, style := some style, datefmt := some datefmt }

/-- `create_global_log(handlers)` (observe.py line 225): configures the
logger named `GLOBAL_LOGGER_NAME` — threshold and propagation from the
config, the handlers formatted with the logger format/style/datefmt and
attached — and returns `Log(name, level)` (whose `Level(level)`
validation makes the result optional). The side effects on the process
root logger (its `setLevel`, `captureWarnings`, and the
force-as-root `dictConfig` branch) touch no state the claims below
read and are left out. -/
def create_global_log (cfg : GlobalConfigState)
    (handlers : List Handler) : Option (Channel × Log) :=
  (Level.ofInt cfg.GLOBAL_LOGGER_LEVEL).map (fun l =>
    ({ name := cfg.GLOBAL_LOGGER_NAME,
       threshold := cfg.GLOBAL_LOGGER_LEVEL,
       sinks := handlers.map (setFormatterFields cfg.GLOBAL_LOGGER_FORMAT
         cfg.GLOBAL_LOGGER_STYLE cfg.GLOBAL_LOGGER_DATEFMT),
       propagate := cfg.GLOBAL_LOGGER_PROPOGATE },
     { name := cfg.GLOBAL_LOGGER_NAME, level := l }))

/-- `create_global_trace(handlers)` (observe.py line 263): configures
the logger named `f"{GLOBAL_LOGGER_NAME}.{GLOBAL_TRACER_NAME}"` with
the tracer threshold, propagation, and formatter fields, and returns
`Trace(name, level)`. The `addLevelName` registration only affects
level pretty-printing and is left out. -/
def create_global_trace (cfg : GlobalConfigState)
    (handlers : List Handler) : Option (Channel × Trace) :=
  (Level.ofInt cfg.GLOBAL_TRACER_LEVEL).map (fun l =>
    ({ name := cfg.GLOBAL_LOGGER_NAME ++ "." ++ cfg.GLOBAL_TRACER_NAME,
       threshold := cfg.GLOBAL_TRACER_LEVEL,
       sinks := handlers.map (setFormatterFields cfg.GLOBAL_TRACER_FORMAT
         cfg.GLOBAL_TRACER_STYLE cfg.GLOBAL_TRACER_DATEFMT),
       propagate := cfg.GLOBAL_TRACER_PROPOGATE },
     Trace.mk { name := cfg.GLOBAL_LOGGER_NAME ++ "." ++ cfg.GLOBAL_TRACER_NAME,
                level := l }))

/-- `create_log(namespace, level)` (observe.py line 309): returns
`Log(f"{GLOBAL_LOGGER_NAME}.{namespace}", level)`. -/
def create_log (cfg : GlobalConfigState) (ns : String) (level : Int) :
    Option Log :=
  mkLog (cfg.GLOBAL_LOGGER_NAME ++ "." ++ ns) level

/-- `create_trace(namespace, level)` (observe.py line 317): returns
`Trace(f"{GLOBAL_LOGGER_NAME}.{GLOBAL_TRACER_NAME}.{namespace}", level)`. -/
def create_trace (cfg : GlobalConfigState) (ns : String) (level : Int) :
    Option Trace :=
  mkTrace (cfg.GLOBAL_LOGGER_NAME ++ "." ++ cfg.GLOBAL_TRACER_NAME
    ++ "." ++ ns) level

/-- Modelled from the spec: the stdlib logger node `create_log` resolves
via `getLogger(name)` — a fresh child Channel with no sinks attached and
default propagation on; `Log.__init__` then sets its threshold to
`level`. -/
def create_log_channel (cfg : GlobalConfigState) (ns : String)
    (level : Int) : Channel :=
  { name := cfg.GLOBAL_LOGGER_NAME ++ "." ++ ns, threshold := level,
    sinks := [], propagate := true }

/-- A dynamically-typed Python attribute value, as far as the
`GlobalConfig` attributes range over them. -/
inductive PyValue where
  | int (n : Int)
  | str (s : String)
  | bool (b : Bool)
deriving DecidableEq

/-- A Python object's attribute dictionary (`vars(obj)`): an
association list of attribute names to values. -/
abbrev Attrs := List (String × PyValue)

/-- Python attribute read (`getattr` on the modelled dictionary): first
binding wins, as in a dict there is at most one. -/
def lookupAttr : Attrs → String → Option PyValue
  | [], _ => none
  | (k, v) :: rest, key => if k = key then some v else lookupAttr rest key

/-- Python `setattr`: overwrite the binding if the name is present,
otherwise add a new one. -/
def setAttrOn : Attrs → String → PyValue → Attrs
  | [], key, v => [(key, v)]
  | (k, w) :: rest, key, v =>
      if k = key then (k, v) :: rest else (k, w) :: setAttrOn rest key v

/-- The attribute names declared in the `GlobalConfig` class body
(observe.py lines 127-141). -/
def globalConfigFieldNames : List String :=
  ["GLOBAL_LOGGER_NAME", "GLOBAL_LOGGER_LEVEL", "GLOBAL_LOGGER_STYLE",
   "GLOBAL_LOGGER_FORMAT", "GLOBAL_LOGGER_DATEFMT",
   "GLOBAL_LOGGER_PROPOGATE", "GLOBAL_LOGGER_FORCE_AS_ROOT",
   "GLOBAL_LOGGER_CAPTURE_WARNINGS", "GLOBAL_TRACER_NAME",
   "GLOBAL_TRACER_LEVEL", "GLOBAL_TRACER_STYLE", "GLOBAL_TRACER_FORMAT",
   "GLOBAL_TRACER_DATEFMT", "GLOBAL_TRACER_PROPOGATE"]

/-- Character-list test that the second list begins with the first. -/
def charsPre : List Char → List Char → Bool
  | [], _ => true
  | _ :: _, [] => false
  | a :: as, b :: bs => a == b && charsPre as bs

/-- Python `s.startswith(p)`. -/
def strStartsWith (s p : String) : Bool := charsPre p.data s.data

/-- `global_config_attr(name)` (observe.py line 217):
`name.startswith("GLOBAL") and hasattr(GlobalConfig, name)`. The names
on the `GlobalConfig` class that start with `"GLOBAL"` are exactly its
declared class-body attributes (the `Protocol` bases contribute only
annotations, which `hasattr` does not see), so the `hasattr` probe is
membership in `globalConfigFieldNames`. -/
def global_config_attr (name : String) : Bool :=
  strStartsWith name "GLOBAL" && globalConfigFieldNames.contains name

/-- `update_global_config(config)` (observe.py line 214): for each
attribute of `vars(config)` passing `global_config_attr`, `setattr` it
onto the GlobalConfig state `cfg` (whose initial bindings are the
class-body defaults). -/
def update_global_config (cfg : Attrs) (source : Attrs) : Attrs :=
  source.foldl
    (fun acc kv =>
      if global_config_attr kv.1 then setAttrOn acc kv.1 kv.2 else acc)
    cfg

/-- The `GlobalConfig` class dictionary at its defaults, as an attribute
dictionary (same values as `defaultGlobalConfig`). -/
def globalConfigDefaultAttrs : Attrs :=
  [("GLOBAL_LOGGER_NAME", .str "global"),
   ("GLOBAL_LOGGER_LEVEL", .int 10),
   ("GLOBAL_LOGGER_STYLE", .str "\x7b"),
   ("GLOBAL_LOGGER_FORMAT", .str formatCustom),
   ("GLOBAL_LOGGER_DATEFMT", .str dateFormatRfc2822),
   ("GLOBAL_LOGGER_PROPOGATE", .bool false),
   ("GLOBAL_LOGGER_FORCE_AS_ROOT", .bool false),
   ("GLOBAL_LOGGER_CAPTURE_WARNINGS", .bool true),
   ("GLOBAL_TRACER_NAME", .str "events"),
   ("GLOBAL_TRACER_LEVEL", .int 25),
   ("GLOBAL_TRACER_STYLE", .str "\x7b"),
   ("GLOBAL_TRACER_FORMAT", .str formatCustomTracing),
   ("GLOBAL_TRACER_DATEFMT", .str dateFormatRfc2822),
   ("GLOBAL_TRACER_PROPOGATE", .bool false)]

/-- One observable step of a wrapped call, in temporal order: an
emission `emitter.log(level, msg)`, or the invocation of the wrapped
operation (recording its result). -/
inductive CallEvent (β : Type) where
  | emits (level : Int) (msg : String)
  | invokes (result : β)
deriving DecidableEq

/-- `logged(log, msg, when, level)` (observe.py line 379): `when == 0`
(BEFORE) returns the `before` wrapper (emit at `level`, call, return);
`when == 1` (AFTER) returns the `after` wrapper (call, emit at
`log.level` — the emitter's own level — return the value); any other
`when` raises `ValueError(f"{when=} during {log.name} {msg}")`. A
wrapper maps the wrapped operation and its argument to the ordered
event list of the call plus the returned value. -/
def logged {α β : Type} (log : Log) (msg : String) (w : Int)
    (level : Int) :
    Except String ((α → β) → α → List (CallEvent β) × β) :=
  if w = 0 then
    .ok (fun f x => ([.emits level msg, .invokes (f x)], f x))
  else if w = 1 then
    .ok (fun f x => ([.invokes (f x), .emits log.level.toInt msg], f x))
  else
    .error ("when=" ++ toString w ++ " during " ++ log.name ++ " " ++ msg)

/-- `traced(trace, msg, when, level)` (observe.py line 406): as
`logged`, except that the `after` wrapper emits at the `level`
parameter (`trace.log(level, msg)`, observe.py line 421), and the
error names `trace._log.name`. -/
def traced {α β : Type} (trace : Trace) (msg : String) (w : Int)
    (level : Int) :
    Except String ((α → β) → α → List (CallEvent β) × β) :=
  if w = 0 then
    .ok (fun f x => ([.emits level msg, .invokes (f x)], f x))
  else if w = 1 then
    .ok (fun f x => ([.invokes (f x), .emits level msg], f x))
  else
    .error ("when=" ++ toString w ++ " during " ++ trace._log.name
      ++ " " ++ msg)

theorem Level.ofInt_toInt (l : Level) : Level.ofInt l.toInt = some l := by
  cases l <;> rfl

theorem Level.ofInt_mem (n : Int) (h : n ∈ levelValues) :
    ∃ l, Level.ofInt n = some l ∧ l.toInt = n := by
  simp [levelValues] at h
  rcases h with h | h | h | h | h | h | h <;> subst h <;>
    exact ⟨_, rfl, rfl⟩

theorem Level.ofInt_not_mem (n : Int) (h : n ∉ levelValues) :
    Level.ofInt n = none := by
  simp [levelValues] at h
  obtain ⟨h0, h10, h20, h25, h30, h40, h50⟩ := h
  simp [Level.ofInt, h0, h10, h20, h25, h30, h40, h50]

theorem lookupAttr_setAttrOn_self (a : Attrs) (k : String) (v : PyValue) :
    lookupAttr (setAttrOn a k v) k = some v := by
  induction a with
  | nil => simp [setAttrOn, lookupAttr]
  | cons kv rest ih =>
      obtain ⟨k0, w⟩ := kv
      by_cases h : k0 = k
      · subst h; simp [setAttrOn, lookupAttr]
      · simp [setAttrOn, lookupAttr, h, ih]

theorem lookupAttr_setAttrOn_ne (a : Attrs) (k k2 : String) (v : PyValue)
    (h : k2 ≠ k) :
    lookupAttr (setAttrOn a k v) k2 = lookupAttr a k2 := by
  induction a with
  | nil => simp [setAttrOn, lookupAttr, Ne.symm h]
  | cons kv rest ih =>
      obtain ⟨k0, w⟩ := kv
      by_cases h0 : k0 = k
      · subst h0
        simp [setAttrOn, lookupAttr, Ne.symm h]
      · simp [setAttrOn, lookupAttr, h0, ih]

theorem lookupAttr_eq_none (a : Attrs) (k : String)
    (h : k ∉ a.map Prod.fst) : lookupAttr a k = none := by
  induction a with
  | nil => rfl
  | cons kv rest ih =>
      obtain ⟨k0, w⟩ := kv
      simp only [List.map_cons, List.mem_cons] at h
      push_neg at h
      simp [lookupAttr, Ne.symm h.1, ih h.2]

theorem setAttrOn_keys_mem (a : Attrs) (k : String) (v : PyValue)
    (h : k ∈ a.map Prod.fst) :
    (setAttrOn a k v).map Prod.fst = a.map Prod.fst := by
  induction a with
  | nil => simp at h
  | cons kv rest ih =>
      obtain ⟨k0, w⟩ := kv
      by_cases h0 : k0 = k
      · subst h0; simp [setAttrOn]
      · simp only [List.map_cons, List.mem_cons] at h
        rcases h with h | h
        · exact absurd h.symm h0
        · simp [setAttrOn, h0, ih h]

theorem update_global_config_cons (cfg : Attrs) (kv : String × PyValue)
    (rest : Attrs) :
    update_global_config cfg (kv :: rest) =
      update_global_config
        (if global_config_attr kv.1 then setAttrOn cfg kv.1 kv.2 else cfg)
        rest := by
  simp only [update_global_config, List.foldl_cons]

theorem update_global_config_keys (source : Attrs) (cfg : Attrs)
    (h : ∀ k, global_config_attr k = true → k ∈ cfg.map Prod.fst) :
    (update_global_config cfg source).map Prod.fst = cfg.map Prod.fst := by
  induction source generalizing cfg with
  | nil => rfl
  | cons kv rest ih =>
      rw [update_global_config_cons]
      by_cases hg : global_config_attr kv.1 = true
      · have hkeys := setAttrOn_keys_mem cfg kv.1 kv.2 (h kv.1 hg)
        rw [if_pos hg, ih (setAttrOn cfg kv.1 kv.2)
          (fun k hk => hkeys ▸ h k hk), hkeys]
      · rw [if_neg hg]; exact ih cfg h

theorem update_global_config_no_attr (source : Attrs) (cfg : Attrs)
    (k : String) (h : global_config_attr k = false) :
    lookupAttr (update_global_config cfg source) k = lookupAttr cfg k := by
  induction source generalizing cfg with
  | nil => rfl
  | cons kv rest ih =>
      rw [update_global_config_cons]
      by_cases hg : global_config_attr kv.1 = true
      · have hne : k ≠ kv.1 := by
          intro he; rw [he, hg] at h; cases h
        rw [if_pos hg, ih (setAttrOn cfg kv.1 kv.2),
          lookupAttr_setAttrOn_ne cfg kv.1 k kv.2 hne]
      · rw [if_neg hg]; exact ih cfg

theorem update_global_config_absent (source : Attrs) (cfg : Attrs)
    (k : String) (h : lookupAttr source k = none) :
    lookupAttr (update_global_config cfg source) k = lookupAttr cfg k := by
  induction source generalizing cfg with
  | nil => rfl
  | cons kv rest ih =>
      obtain ⟨k0, v0⟩ := kv
      by_cases hk0 : k0 = k
      · subst hk0; simp [lookupAttr] at h
      · simp only [lookupAttr, hk0, if_false] at h
        rw [update_global_config_cons]
        by_cases hg : global_config_attr k0 = true
        · rw [if_pos hg, ih (setAttrOn cfg k0 v0) h,
            lookupAttr_setAttrOn_ne cfg k0 k v0 (Ne.symm hk0)]
        · rw [if_neg hg]; exact ih cfg h

theorem update_global_config_copied (source : Attrs) (cfg : Attrs)
    (k : String) (v : PyValue) (hnd : (source.map Prod.fst).Nodup)
    (hk : lookupAttr source k = some v)
    (hg : global_config_attr k = true) :
    lookupAttr (update_global_config cfg source) k = some v := by
  induction source generalizing cfg with
  | nil => simp [lookupAttr] at hk
  | cons kv rest ih =>
      obtain ⟨k0, v0⟩ := kv
      simp only [List.map_cons, List.nodup_cons] at hnd
      by_cases hk0 : k0 = k
      · subst hk0
        simp only [lookupAttr, if_true] at hk
        rw [update_global_config_cons, if_pos hg,
          update_global_config_absent rest (setAttrOn cfg k0 v0) k0
            (lookupAttr_eq_none rest k0 hnd.1),
          lookupAttr_setAttrOn_self]
        exact hk
      · simp only [lookupAttr, hk0, if_false] at hk
        rw [update_global_config_cons]
        by_cases hg0 : global_config_attr k0 = true
        · rw [if_pos hg0]; exact ih _ hnd.2 hk
        · rw [if_neg hg0]; exact ih cfg hnd.2 hk

theorem global_config_attr_mem (k : String)
    (h : global_config_attr k = true) : k ∈ globalConfigFieldNames := by
  simp only [global_config_attr, Bool.and_eq_true] at h
  simpa using h.2

theorem mem_global_config_attr :
    ∀ k ∈ globalConfigFieldNames, global_config_attr k = true := by decide

theorem not_mem_global_config_attr (k : String)
    (h : k ∉ globalConfigFieldNames) : global_config_attr k = false := by
  simp [global_config_attr, h]

theorem globalConfigDefaultAttrs_keys :
    globalConfigDefaultAttrs.map Prod.fst = globalConfigFieldNames := rfl

/-- C2: `update_global_config(source)` copies into GlobalConfig exactly
those attributes of `source` whose names already exist as declared
GlobalConfig fields (first conjunct after the key set: such an
attribute's value is copied), silently ignores every other attribute of
`source` (a name not among the declared fields is left exactly as it
was — absent), the declared field set is unchanged, so no new field is
ever created, and a field the source does not mention keeps its value;
the operation is a total function, so it never fails, for every source
object (modelled as its attribute dictionary, `Nodup` because Python
attribute names are dict keys). -/
theorem update_global_config_whitelist (source : Attrs)
    (hnd : (source.map Prod.fst).Nodup) :
    ((update_global_config globalConfigDefaultAttrs source).map Prod.fst
      = globalConfigFieldNames)
    ∧ (∀ k v, k ∈ globalConfigFieldNames → lookupAttr source k = some v →
        lookupAttr (update_global_config globalConfigDefaultAttrs source) k
          = some v)
    ∧ (∀ k, lookupAttr source k = none →
        lookupAttr (update_global_config globalConfigDefaultAttrs source) k
          = lookupAttr globalConfigDefaultAttrs k)
    ∧ (∀ k, k ∉ globalConfigFieldNames →
        lookupAttr (update_global_config globalConfigDefaultAttrs source) k
          = lookupAttr globalConfigDefaultAttrs k) := by
  refine ⟨?_, ?_, ?_, ?_⟩
  · exact update_global_config_keys source globalConfigDefaultAttrs
      (fun k hk => globalConfigDefaultAttrs_keys ▸ global_config_attr_mem k hk)
  · exact fun k v hk hs => update_global_config_copied source
      globalConfigDefaultAttrs k v hnd hs (mem_global_config_attr k hk)
  · exact fun k hs => update_global_config_absent source
      globalConfigDefaultAttrs k hs
  · exact fun k hk => update_global_config_no_attr source
      globalConfigDefaultAttrs k (not_mem_global_config_attr k hk)

/-- The spec's example source object,
`{GLOBAL_LOGGER_LEVEL: DEBUG, FOO: "x"}`. -/
def exampleSource : Attrs :=
  [("GLOBAL_LOGGER_LEVEL", PyValue.int 10), ("FOO", PyValue.str "x")]

/-- Witness for C2 at the spec's example source: the logger level is
copied, no `FOO` field exists afterward, and the field set is
unchanged. -/
theorem update_global_config_whitelist_witness :
    ((exampleSource.map Prod.fst).Nodup)
    ∧ lookupAttr (update_global_config globalConfigDefaultAttrs
        exampleSource) "GLOBAL_LOGGER_LEVEL" = some (PyValue.int 10)
    ∧ lookupAttr (update_global_config globalConfigDefaultAttrs
        exampleSource) "FOO" = none
    ∧ List.map Prod.fst (update_global_config globalConfigDefaultAttrs
        exampleSource) = globalConfigFieldNames :=
  ⟨by decide,
    (update_global_config_whitelist exampleSource (by decide)).2.1
      "GLOBAL_LOGGER_LEVEL" (PyValue.int 10) (by decide) (by decide),
    by
      rw [(update_global_config_whitelist exampleSource
        (by decide)).2.2.2 "FOO" (by decide)]
      decide,
    (update_global_config_whitelist exampleSource (by decide)).1⟩

theorem Level.toInt_mem (l : Level) : l.toInt ∈ levelValues := by
  cases l <;> decide

theorem Trace.span_eq (t : Trace) (s : String) :
    t.span s = some (Trace.mk
      { name := t._log.name ++ "." ++ s, level := t._log.level }) := by
  simp [Trace.span, mkTrace, mkLog, Level.ofInt_toInt]

/-- C7: for every Trace `t` and leaf `s`, `t.span s` builds a new Trace
whose name is `t`'s name ++ "." ++ `s` and whose level is copied from
`t` at call time (the child holds its own copy, so later changes to the
parent cannot reach it); spans compose, as on the spec's `"events.job"`
example, where span "step1" then span "step2" yields
`"events.job.step1.step2"`. -/
theorem span_name_composition (t : Trace) (s : String) :
    (∃ u, t.span s = some u
      ∧ u._log.name = t._log.name ++ "." ++ s
      ∧ u._log.level = t._log.level)
    ∧ (((Trace.mk (Log.mk "events.job" Level.TRACE)).span "step1").bind
        (fun u => u.span "step2")
      = some (Trace.mk (Log.mk "events.job.step1.step2" Level.TRACE))) := by
  constructor
  · exact ⟨_, Trace.span_eq t s, rfl, rfl⟩
  · decide

/-- C10: constructing a Log or a Trace — directly, or through
`create_log` / `create_trace` — with an integer level outside the
declared `Level` values fails with `ValueError` (modelled as `none`)
instead of returning a handle; with a level in that set construction
succeeds and the stored threshold equals that level; and `Trace.span`
passes its parent's (always-valid) numeric level, so the Trace it
constructs always exists and again carries a declared level. -/
theorem level_validation (name ns : String) (lvl : Int)
    (cfg : GlobalConfigState) (t : Trace) (s : String) :
    (lvl ∉ levelValues →
      mkLog name lvl = none ∧ mkTrace name lvl = none
      ∧ create_log cfg ns lvl = none ∧ create_trace cfg ns lvl = none)
    ∧ (lvl ∈ levelValues →
      (∃ lg, mkLog name lvl = some lg ∧ lg.name = name
        ∧ lg.level.toInt = lvl)
      ∧ (∃ tr, mkTrace name lvl = some tr ∧ tr._log.level.toInt = lvl)
      ∧ (∃ lg2, create_log cfg ns lvl = some lg2
        ∧ lg2.level.toInt = lvl)
      ∧ (∃ tr2, create_trace cfg ns lvl = some tr2
        ∧ tr2._log.level.toInt = lvl))
    ∧ (∃ u, t.span s = some u ∧ u._log.level.toInt ∈ levelValues) := by
  refine ⟨fun h => ?_, fun h => ?_, ?_⟩
  · have hn := Level.ofInt_not_mem lvl h
    simp [mkLog, mkTrace, create_log, create_trace, hn]
  · obtain ⟨l, hl, hlt⟩ := Level.ofInt_mem lvl h
    refine ⟨⟨{ name := name, level := l }, ?_, rfl, hlt⟩,
      ⟨Trace.mk { name := name, level := l }, ?_, hlt⟩,
      ⟨{ name := cfg.GLOBAL_LOGGER_NAME ++ "." ++ ns, level := l }, ?_, hlt⟩,
      ⟨Trace.mk { name := cfg.GLOBAL_LOGGER_NAME ++ "."
          ++ cfg.GLOBAL_TRACER_NAME ++ "." ++ ns, level := l }, ?_, hlt⟩⟩
      <;> simp [mkLog, mkTrace, create_log, create_trace, hl]
  · exact ⟨_, Trace.span_eq t s, Level.toInt_mem t._log.level⟩

/-- Witness for C10: level 7 is not a declared value and `Log`
construction fails; level 25 is declared and construction succeeds with
threshold 25. -/
theorem level_validation_witness :
    ((7 : Int) ∉ levelValues ∧ mkLog "x" 7 = none)
    ∧ ((25 : Int) ∈ levelValues
      ∧ ∃ lg, mkLog "x" 25 = some lg ∧ lg.name = "x"
        ∧ lg.level.toInt = 25) :=
  ⟨⟨by decide,
    ((level_validation "x" "ns" 7 defaultGlobalConfig
      (Trace.mk (Log.mk "events.job" Level.TRACE)) "s").1 (by decide)).1⟩,
   ⟨by decide,
    ((level_validation "x" "ns" 25 defaultGlobalConfig
      (Trace.mk (Log.mk "events.job" Level.TRACE)) "s").2.1 (by decide)).1⟩⟩

/-- C5 counterexample: with the default configuration,
`create_global_trace` names the root tracer channel
`"global.events"` — the root logger name `"global"` followed by `"."`
and the tracer name — so the root tracer channel IS a descendant (a
direct child, by dotted-name prefix) of the root logger channel, and
the two roots are not prefix-incomparable as the claim states. -/
theorem trace_root_is_descendant :
    Option.map (fun p => p.2._log.name)
      (create_global_trace defaultGlobalConfig [])
      = some (defaultGlobalConfig.GLOBAL_LOGGER_NAME ++ "." ++ "events")
    ∧ Option.map (fun p => p.2.name)
        (create_global_log defaultGlobalConfig [])
      = some defaultGlobalConfig.GLOBAL_LOGGER_NAME
    ∧ strStartsWith "global.events"
        (defaultGlobalConfig.GLOBAL_LOGGER_NAME ++ ".") = true := by
  refine ⟨by decide, by decide, by decide⟩

/-- C5 amended: the logger and tracer hierarchies share the same root
name, but the root tracer channel created by `create_global_trace` is a
direct child of the root logger channel — its name is the root logger
name joined with the tracer name by "." — and namespaced traces live
below it, so the trace hierarchy is the subtree of the logger hierarchy
rooted at that child. -/
theorem trace_root_child_of_log_root (cfg : GlobalConfigState)
    (handlers : List Handler) (ns : String) (lvl : Int) :
    (∀ c t, create_global_trace cfg handlers = some (c, t) →
      c.name = cfg.GLOBAL_LOGGER_NAME ++ "." ++ cfg.GLOBAL_TRACER_NAME
      ∧ t._log.name
        = cfg.GLOBAL_LOGGER_NAME ++ "." ++ cfg.GLOBAL_TRACER_NAME)
    ∧ (∀ t2, create_trace cfg ns lvl = some t2 →
      t2._log.name = cfg.GLOBAL_LOGGER_NAME ++ "."
        ++ cfg.GLOBAL_TRACER_NAME ++ "." ++ ns) := by
  constructor
  · intro c t h
    simp only [create_global_trace, Option.map_eq_some'] at h
    obtain ⟨l, hl, heq⟩ := h
    obtain ⟨hc, ht⟩ := Prod.mk.injEq .. ▸ heq
    exact ⟨hc ▸ rfl, ht ▸ rfl⟩
  · intro t2 h
    simp only [create_trace, mkTrace, mkLog, Option.map_map,
      Option.map_eq_some'] at h
    obtain ⟨l, hl, heq⟩ := h
    exact heq ▸ rfl

/-- Witness for C5 amended, at the default configuration with no
handlers: the root tracer channel is `"global.events"`, which is the
root logger name "global" joined with the tracer name "events". -/
theorem trace_root_child_of_log_root_witness :
    create_global_trace defaultGlobalConfig [] = some
      ({ name := "global.events", threshold := 25, sinks := [],
         propagate := false },
       Trace.mk (Log.mk "global.events" Level.TRACE))
    ∧ (Trace.mk (Log.mk "global.events" Level.TRACE))._log.name
      = defaultGlobalConfig.GLOBAL_LOGGER_NAME ++ "."
        ++ defaultGlobalConfig.GLOBAL_TRACER_NAME :=
  ⟨by decide,
    ((trace_root_child_of_log_root defaultGlobalConfig [] "job" 25).1
      { name := "global.events", threshold := 25, sinks := [],
        propagate := false }
      (Trace.mk (Log.mk "global.events" Level.TRACE)) (by decide)).2⟩

/-- C6 counterexample: when the GlobalConfig logger level has been
changed to ERROR (40) by the time of the call, `create_handler_stdout`
called without an explicit level still yields a handler at DEBUG (10) —
the value the default argument captured at module definition — not the
logger level configured at call time, as the claim requires. -/
theorem handler_default_ignores_call_time_config :
    (create_handler_stdout
      { defaultGlobalConfig with GLOBAL_LOGGER_LEVEL := 40 } none).level
      = 10
    ∧ ({ defaultGlobalConfig with GLOBAL_LOGGER_LEVEL := 40 }
        : GlobalConfigState).GLOBAL_LOGGER_LEVEL = 40
    ∧ (create_handler_stdout
        { defaultGlobalConfig with GLOBAL_LOGGER_LEVEL := 40 } none).level
      ≠ ({ defaultGlobalConfig with GLOBAL_LOGGER_LEVEL := 40 }
        : GlobalConfigState).GLOBAL_LOGGER_LEVEL := by
  refine ⟨rfl, rfl, by decide⟩

/-- C6 amended: called without an explicit level, console-err defaults
to ERROR, while console-out, syslog, file, and rotating-file default to
the GlobalConfig logger level as it stood at module-definition time
(DEBUG = 10, captured by Python's def-time evaluation of default
arguments) — not as configured at the time of the constructor call;
none of the five constructors sets a format template, date template, or
style. -/
theorem handler_level_defaults (cfg : GlobalConfigState)
    (host path mode : String) (port maxFiles maxBytes : Int)
    (enc : Option String) :
    (create_handler_stderr none).level = Level.ERROR.toInt
    ∧ (create_handler_stdout cfg none).level
      = defaultGlobalConfig.GLOBAL_LOGGER_LEVEL
    ∧ (create_handler_syslog cfg host port none).level
      = defaultGlobalConfig.GLOBAL_LOGGER_LEVEL
    ∧ (create_handler_file cfg path mode enc none).level
      = defaultGlobalConfig.GLOBAL_LOGGER_LEVEL
    ∧ (create_handler_file_rotating cfg path mode maxFiles maxBytes enc
        none).level = defaultGlobalConfig.GLOBAL_LOGGER_LEVEL
    ∧ ((create_handler_stderr none).fmt,
        (create_handler_stderr none).datefmt,
        (create_handler_stderr none).style) = (none, none, none)
    ∧ ((create_handler_stdout cfg none).fmt,
        (create_handler_stdout cfg none).datefmt,
        (create_handler_stdout cfg none).style) = (none, none, none)
    ∧ ((create_handler_syslog cfg host port none).fmt,
        (create_handler_syslog cfg host port none).datefmt,
        (create_handler_syslog cfg host port none).style)
      = (none, none, none)
    ∧ ((create_handler_file cfg path mode enc none).fmt,
        (create_handler_file cfg path mode enc none).datefmt,
        (create_handler_file cfg path mode enc none).style)
      = (none, none, none)
    ∧ ((create_handler_file_rotating cfg path mode maxFiles maxBytes enc
          none).fmt,
        (create_handler_file_rotating cfg path mode maxFiles maxBytes enc
          none).datefmt,
        (create_handler_file_rotating cfg path mode maxFiles maxBytes enc
          none).style) = (none, none, none) :=
  ⟨rfl, rfl, rfl, rfl, rfl, rfl, rfl, rfl, rfl, rfl⟩

/-- C1 counterexample: a `traced` wrapper with when = AFTER on an
emitter whose configured level is ERROR (40), built with level
parameter TRACE (25): the emission after the invocation is at 25 — the
`level` parameter — not at the emitter's own configured 40, so the
claim's "emits at the emitter's own configured level" fails for
`traced`. -/
theorem traced_after_uses_level_param :
    Option.map (fun d => d (fun n : Int => n * 2) 5)
      (traced (Trace.mk (Log.mk "global.events" Level.ERROR))
        "m" 1 25).toOption
      = some ([CallEvent.invokes 10, CallEvent.emits 25 "m"], 10)
    ∧ (Trace.mk (Log.mk "global.events" Level.ERROR))._log.level.toInt
      = 40
    ∧ (25 : Int) ≠ 40 := by
  refine ⟨by decide, rfl, by decide⟩

/-- C1 amended: a wrapper built with when = AFTER first invokes the
operation, then performs its single emission, and returns the
operation's result unchanged; the emission is at the emitter's own
configured level for `logged` (ignoring the decorator's `level`
parameter), but at the `level` parameter for `traced`. -/
theorem after_wrapper_order (α β : Type) (lg : Log) (tr : Trace)
    (msg : String) (level : Int) (f : α → β) (x : α) :
    (∃ d, (logged lg msg 1 level
        : Except String ((α → β) → α → List (CallEvent β) × β))
        = Except.ok d
      ∧ d f x = ([CallEvent.invokes (f x),
          CallEvent.emits lg.level.toInt msg], f x))
    ∧ (∃ d, (traced tr msg 1 level
        : Except String ((α → β) → α → List (CallEvent β) × β))
        = Except.ok d
      ∧ d f x = ([CallEvent.invokes (f x), CallEvent.emits level msg],
          f x)) := by
  constructor
  · exact ⟨fun f x => ([CallEvent.invokes (f x),
      CallEvent.emits lg.level.toInt msg], f x), by norm_num [logged], rfl⟩
  · exact ⟨fun f x => ([CallEvent.invokes (f x),
      CallEvent.emits level msg], f x), by norm_num [traced], rfl⟩

/-- C8: a wrapper built by `logged` or `traced` with when = BEFORE
performs exactly one emission — the message at the given `level`,
strictly before the single invocation of the operation, never after as
well — and returns the operation's result unchanged. -/
theorem before_wrapper_order (α β : Type) (lg : Log) (tr : Trace)
    (msg : String) (level : Int) (f : α → β) (x : α) :
    (∃ d, (logged lg msg 0 level
        : Except String ((α → β) → α → List (CallEvent β) × β))
        = Except.ok d
      ∧ d f x = ([CallEvent.emits level msg, CallEvent.invokes (f x)],
          f x))
    ∧ (∃ d, (traced tr msg 0 level
        : Except String ((α → β) → α → List (CallEvent β) × β))
        = Except.ok d
      ∧ d f x = ([CallEvent.emits level msg, CallEvent.invokes (f x)],
          f x)) := by
  constructor
  · exact ⟨fun f x => ([CallEvent.emits level msg,
      CallEvent.invokes (f x)], f x), by norm_num [logged], rfl⟩
  · exact ⟨fun f x => ([CallEvent.emits level msg,
      CallEvent.invokes (f x)], f x), by norm_num [traced], rfl⟩

/-- C3: for `when` neither BEFORE (0) nor AFTER (1), `logged` and
`traced` fail at decoration time — no wrapper is produced, so no
wrapped call can happen — with a ValueError whose message contains both
the emitter's channel name and the message text. -/
theorem invalid_when_fails (α β : Type) (lg : Log) (tr : Trace)
    (msg : String) (w level : Int) (h0 : w ≠ 0) (h1 : w ≠ 1) :
    (∃ e, (logged lg msg w level
        : Except String ((α → β) → α → List (CallEvent β) × β))
        = Except.error e
      ∧ (∃ a b, e = a ++ lg.name ++ b) ∧ (∃ a b, e = a ++ msg ++ b))
    ∧ (∃ e, (traced tr msg w level
        : Except String ((α → β) → α → List (CallEvent β) × β))
        = Except.error e
      ∧ (∃ a b, e = a ++ tr._log.name ++ b)
      ∧ (∃ a b, e = a ++ msg ++ b)) := by
  constructor
  · refine ⟨"when=" ++ toString w ++ " during " ++ lg.name ++ " " ++ msg,
      by simp [logged, h0, h1],
      ⟨"when=" ++ toString w ++ " during ", " " ++ msg, ?_⟩,
      ⟨"when=" ++ toString w ++ " during " ++ lg.name ++ " ", "", ?_⟩⟩
    · simp [String.append_assoc]
    · rw [String.append_empty]
  · refine ⟨"when=" ++ toString w ++ " during " ++ tr._log.name ++ " "
        ++ msg,
      by simp [traced, h0, h1],
      ⟨"when=" ++ toString w ++ " during ", " " ++ msg, ?_⟩,
      ⟨"when=" ++ toString w ++ " during " ++ tr._log.name ++ " ", "",
        ?_⟩⟩
    · simp [String.append_assoc]
    · rw [String.append_empty]

/-- Witness for C3: `logged(log, "m", 99)` (and the `traced`
counterpart) is rejected with an error mentioning the channel's name
and "m". -/
theorem invalid_when_fails_witness :
    (99 : Int) ≠ 0 ∧ (99 : Int) ≠ 1
    ∧ (∃ e, (logged (Log.mk "global.app" Level.INFO) "m" 99 20
        : Except String ((Nat → Nat) → Nat → List (CallEvent Nat) × Nat))
        = Except.error e
      ∧ (∃ a b, e = a ++ (Log.mk "global.app" Level.INFO).name ++ b)
      ∧ (∃ a b, e = a ++ "m" ++ b)) :=
  ⟨by decide, by decide,
    (invalid_when_fails Nat Nat (Log.mk "global.app" Level.INFO)
      (Trace.mk (Log.mk "global.events" Level.TRACE)) "m" 99 20
      (by decide) (by decide)).1⟩

/-- C4: on a Channel thresholded at L2, emitting at L1 < L2 delivers
the message to no sink, while emitting at L2 delivers it to every
attached sink whose own filter level is ≤ L2; the threshold is the one
the Channel holds at emission time. -/
theorem threshold_gates_delivery (c : Channel) (l1 l2 : Int) (m : String)
    (s : Handler) (h12 : l1 < l2) (hth : c.threshold = l2) :
    emitThrough [c] l1 m = []
    ∧ (s ∈ c.sinks → s.level ≤ l2 → (s, m) ∈ emitThrough [c] l2 m) := by
  constructor
  · simp [emitThrough, hth, not_le.mpr h12]
  · intro hs hsl
    simp only [emitThrough, hth, le_refl, if_true, collectSinks,
      ite_self, List.append_nil]
    exact List.mem_map.mpr
      ⟨s, List.mem_filter.mpr ⟨hs, by simpa using hsl⟩, rfl⟩

/-- A sink filtering at INFO (20), for the C4 witness. -/
def sinkInfo : Handler :=
  { dest := Dest.stderrDest, level := 20, fmt := none, datefmt := none,
    style := none }

/-- A channel thresholded at WARN (30) holding `sinkInfo`, for the C4
witness. -/
def channelWarn : Channel :=
  { name := "global", threshold := 30, sinks := [sinkInfo],
    propagate := false }

/-- Witness for C4: a channel thresholded at WARN (30) with one sink
filtering at INFO (20) delivers nothing at 20 and delivers to that sink
at 30. -/
theorem threshold_gates_delivery_witness :
    (20 : Int) < 30
    ∧ emitThrough [channelWarn] 20 "m" = []
    ∧ (sinkInfo, "m") ∈ emitThrough [channelWarn] 30 "m" :=
  ⟨by decide,
    (threshold_gates_delivery channelWarn 20 30 "m" sinkInfo
      (by decide) rfl).1,
    (threshold_gates_delivery channelWarn 20 30 "m" sinkInfo
      (by decide) rfl).2 (by decide) (by decide)⟩

/-- C9: `create_log(namespace, level)` returns a Log whose channel name
is the global root logger name joined with `namespace` by ".", and its
underlying channel carries no sinks of its own; with the channel's
default propagation on, a record emitted through it at a sufficient
level — at or above the child's threshold and the sink's own filter —
reaches every sink attached to the root logger Channel by walking the
ancestor chain. -/
theorem create_log_propagates_to_root (cfg : GlobalConfigState)
    (ns : String) (lvl : Int) (handlers : List Handler) (rc : Channel)
    (rl : Log) (lg : Log) (level : Int) (m : String) (s : Handler)
    (_hroot : create_global_log cfg handlers = some (rc, rl))
    (hlog : create_log cfg ns lvl = some lg)
    (hlev : lvl ≤ level) (hs : s ∈ rc.sinks) (hsl : s.level ≤ level) :
    lg.name = cfg.GLOBAL_LOGGER_NAME ++ "." ++ ns
    ∧ (create_log_channel cfg ns lvl).sinks = []
    ∧ (s, m) ∈ emitThrough [create_log_channel cfg ns lvl, rc] level m := by
  refine ⟨?_, rfl, ?_⟩
  · simp only [create_log, mkLog, Option.map_eq_some'] at hlog
    obtain ⟨l, hl, heq⟩ := hlog
    exact heq ▸ rfl
  · simp only [emitThrough, create_log_channel]
    rw [if_pos hlev]
    simp only [collectSinks, List.filter_nil, List.map_nil,
      List.nil_append, if_true, ite_self, List.append_nil]
    exact List.mem_map.mpr
      ⟨s, List.mem_filter.mpr ⟨hs, by simpa using hsl⟩, rfl⟩

/-- The handler passed to `create_global_log` in the C9 witness (a
console-err handler at ERROR). -/
def rootHandlerErr : Handler :=
  { dest := Dest.stderrDest, level := 40, fmt := none, datefmt := none,
    style := none }

/-- `rootHandlerErr` after the global factory attaches the logger
formatter fields. -/
def rootSinkErr : Handler :=
  { dest := Dest.stderrDest, level := 40, fmt := some formatCustom,
    datefmt := some dateFormatRfc2822, style := some "\x7b" }

/-- The root logger channel the C9 witness builds at the default
configuration. -/
def rootChannelW : Channel :=
  { name := "global", threshold := 10, sinks := [rootSinkErr],
    propagate := false }

/-- Witness for C9 at the default configuration: a Log created for
namespace "app" at DEBUG is named "global.app"; a record emitted at 40
through its (sink-less, propagating) channel reaches the root sink
filtering at 40. -/
theorem create_log_propagates_to_root_witness :
    create_global_log defaultGlobalConfig [rootHandlerErr]
      = some (rootChannelW, Log.mk "global" Level.DEBUG)
    ∧ create_log defaultGlobalConfig "app" 10
      = some (Log.mk "global.app" Level.DEBUG)
    ∧ (10 : Int) ≤ 40 ∧ rootSinkErr ∈ rootChannelW.sinks
    ∧ (40 : Int) ≤ 40
    ∧ (Log.mk "global.app" Level.DEBUG).name
      = defaultGlobalConfig.GLOBAL_LOGGER_NAME ++ "." ++ "app"
    ∧ (rootSinkErr, "hello") ∈ emitThrough
        [create_log_channel defaultGlobalConfig "app" 10, rootChannelW]
        40 "hello" :=
  ⟨by decide, by decide, by decide, by decide, by decide,
    (create_log_propagates_to_root defaultGlobalConfig "app" 10
      [rootHandlerErr] rootChannelW (Log.mk "global" Level.DEBUG)
      (Log.mk "global.app" Level.DEBUG) 40 "hello" rootSinkErr
      (by decide) (by decide) (by decide) (by decide) (by decide)).1,
    (create_log_propagates_to_root defaultGlobalConfig "app" 10
      [rootHandlerErr] rootChannelW (Log.mk "global" Level.DEBUG)
      (Log.mk "global.app" Level.DEBUG) 40 "hello" rootSinkErr
      (by decide) (by decide) (by decide) (by decide) (by decide)).2.2⟩
